import Mathlib

/-
Shallow embedding of src/backend/app.py (MANRAF04/web-gcs), the Flask
backend holding a single global DroneKit vehicle handle with three
endpoints: /api/connect, /api/disconnect and /api/status.

The external DroneKit driver is modelled per the specification of the
external collaborator (spec section 6): a session whose telemetry
attributes are each optionally absent, and whose attribute accesses may
themselves raise (the code's own try/except blocks anticipate exactly
that).  An attribute read is therefore `Except String (Option _)`:
`Except.error` is a raised exception, `Except.ok none` the Python value
None, `Except.ok (some _)` a supplied value.  Telemetry numbers are
carried opaquely as integers; the code never computes with them.
-/

namespace WebGCS

abbrev Val := Int

/-- A DroneKit VehicleMode object; `vehicle.mode.name` reads its name. -/
structure VehicleMode where
  modeName : String

/-- `vehicle.location.global_relative_frame`: lat/lon/alt each optionally absent. -/
structure Frame where
  lat : Option Val
  lon : Option Val
  alt : Option Val

/-- `vehicle.battery`; its voltage attribute is optionally absent. -/
structure Battery where
  voltage : Option Val

/-- A live driver session (the DroneKit Vehicle object).  Each field is the
result of reading the corresponding attribute: it can raise, be None, or
hold a value.  `close_result` is the behaviour of `vehicle.close()`. -/
structure Session where
  mode : Except String (Option VehicleMode)
  armed : Except String (Option Bool)
  global_relative_frame : Except String (Option Frame)
  airspeed : Except String (Option Val)
  groundspeed : Except String (Option Val)
  heading : Except String (Option Val)
  battery : Except String (Option Battery)
  close_result : Except String Unit

/-- Evaluation of the Python expression `vehicle.mode.name`: raises when the
mode attribute access raises, and raises AttributeError when the mode
attribute is None (the access is not guarded anywhere in app.py). -/
def attr_mode_name (v : Session) : Except String String :=
  match v.mode with
  | Except.error e => Except.error e
  | Except.ok none => Except.error "AttributeError: NoneType has no attribute name"
  | Except.ok (some m) => Except.ok m.modeName

/-- The fixed connection string of app.py line 17; the request body is never
consulted (the code reading it is commented out, app.py lines 39-41). -/
def connection_string : String := "udp:127.0.0.1:14550"

/-- Outcome of the external call `connect(connection_string, wait_ready=True,
timeout=60)`: a vehicle object, None, or one of the exception classes that
app.py lines 56-70 catch separately. -/
inductive DriverResult where
  | session (s : Session)
  | retNone
  | apiExc (msg : String)
  | timeoutExc (msg : String)
  | otherExc (msg : String)

/-- The attribute reads performed by the logging calls inside the success
branch of connect_drone (app.py lines 50-52): `vehicle.mode.name`,
`vehicle.armed`, and `vehicle.location.global_relative_frame` (guarded, so
a None frame logs N/A but an access that raises propagates).  These run
inside the try block, so a raise here lands in the generic except branch. -/
def log_connect_info (s : Session) : Except String Unit :=
  match attr_mode_name s with
  | Except.error e => Except.error e
  | Except.ok _ =>
    match s.armed with
    | Except.error e => Except.error e
    | Except.ok _ =>
      match s.global_relative_frame with
      | Except.error e => Except.error e
      | Except.ok _ => Except.ok ()

/-- The JSON responses of /api/connect, by branch of connect_drone.
`alreadyConnected` and `connected` are the two 200 responses; the others
are the 500 responses of lines 55-70. -/
inductive ConnResp where
  | alreadyConnected
  | connected
  | vehicleNone
  | apiError (msg : String)
  | timedOut
  | unexpected (msg : String)

/-- HTTP status code of each /api/connect response. -/
def ConnResp.httpCode : ConnResp → Nat
  | ConnResp.alreadyConnected => 200
  | ConnResp.connected => 200
  | ConnResp.vehicleNone => 500
  | ConnResp.apiError _ => 500
  | ConnResp.timedOut => 500
  | ConnResp.unexpected _ => 500

/-- connect_drone (app.py lines 29-70).  State is the global `vehicle`
(None or a session); the driver call is a function consulted only at the
fixed connection string with timeout 60.  Returns the response and the
new value of the global. -/
def connect_drone (vehicle : Option Session)
    (driver : String → Nat → DriverResult) : ConnResp × Option Session :=
  match vehicle with
  | some v => (ConnResp.alreadyConnected, some v)
  | none =>
    match driver connection_string 60 with
    | DriverResult.session s =>
      match log_connect_info s with
      | Except.ok _ => (ConnResp.connected, some s)
      | Except.error e => (ConnResp.unexpected e, none)
    | DriverResult.retNone => (ConnResp.vehicleNone, none)
    | DriverResult.apiExc m => (ConnResp.apiError m, none)
    | DriverResult.timeoutExc _ => (ConnResp.timedOut, none)
    | DriverResult.otherExc m => (ConnResp.unexpected m, none)

/-- The full /api/connect endpoint: also receives the raw request body,
which the handler never reads (app.py lines 39-41 are commented out). -/
def connect_endpoint (_req : String) (vehicle : Option Session)
    (driver : String → Nat → DriverResult) : ConnResp × Option Session :=
  connect_drone vehicle driver

/-- The responses of /api/disconnect.  `raised` models an exception escaping
the handler: `vehicle.close()` on line 78 is not inside any try block, so a
failing close propagates out of disconnect_drone. -/
inductive DiscResp where
  | closed
  | alreadyDisconnected
  | raised (msg : String)

/-- disconnect_drone (app.py lines 72-85).  When a session is held, close it
and clear the global; a close that raises escapes before `vehicle = None`
runs, so the global keeps the session. -/
def disconnect_drone (vehicle : Option Session) : DiscResp × Option Session :=
  match vehicle with
  | none => (DiscResp.alreadyDisconnected, none)
  | some v =>
    match v.close_result with
    | Except.ok _ => (DiscResp.closed, none)
    | Except.error e => (DiscResp.raised e, some v)

/-- The data dict built by get_status on success (app.py lines 94-105),
minus the constant is_connected field. -/
structure StatusData where
  mode : String
  armed : Option Bool
  lat : Option Val
  lon : Option Val
  alt : Option Val
  airspeed : Option Val
  groundspeed : Option Val
  heading : Option Val
  battery_voltage : Option Val

/-- Building the status dict, attribute by attribute in source order; the
first read that raises aborts the whole dict (the frame attribute is read
once here although the source reads the same attribute three times: the
reads are identical).  lat/lon/alt and battery_voltage are the only
entries guarded against an absent parent object. -/
def build_status (v : Session) : Except String StatusData :=
  match attr_mode_name v with
  | Except.error e => Except.error e
  | Except.ok mode =>
    match v.armed with
    | Except.error e => Except.error e
    | Except.ok armed =>
      match v.global_relative_frame with
      | Except.error e => Except.error e
      | Except.ok frame =>
        match v.airspeed with
        | Except.error e => Except.error e
        | Except.ok airspeed =>
          match v.groundspeed with
          | Except.error e => Except.error e
          | Except.ok groundspeed =>
            match v.heading with
            | Except.error e => Except.error e
            | Except.ok heading =>
              match v.battery with
              | Except.error e => Except.error e
              | Except.ok batt =>
                Except.ok ⟨mode, armed, frame.bind Frame.lat, frame.bind Frame.lon,
                  frame.bind Frame.alt, airspeed, groundspeed, heading,
                  batt.bind Battery.voltage⟩

/-- The responses of /api/status: not connected (200), a snapshot (200), or
the 500 fetch-error response from the except branch (app.py lines 107-109). -/
inductive StatusResp where
  | notConnected
  | snapshot (d : StatusData)
  | fetchError (msg : String)

/-- get_status (app.py lines 89-112).  The whole dict construction sits in
one try; any raise is caught and returned as a 500 without touching the
global `vehicle`. -/
def get_status (vehicle : Option Session) : StatusResp × Option Session :=
  match vehicle with
  | none => (StatusResp.notConnected, none)
  | some v =>
    match build_status v with
    | Except.ok d => (StatusResp.snapshot d, some v)
    | Except.error e => (StatusResp.fetchError e, some v)

/- Concrete sessions used to instantiate theorems on explicit inputs. -/

/-- A fully healthy session: every attribute supplied, close succeeds. -/
def goodSession : Session :=
  ⟨Except.ok (some ⟨"GUIDED"⟩), Except.ok (some false),
   Except.ok (some ⟨some 47, some 8, some 120⟩),
   Except.ok (some 15), Except.ok (some 14), Except.ok (some 90),
   Except.ok (some ⟨some 12⟩), Except.ok ()⟩

/-- A session whose mode attribute is None (driver cannot supply the mode)
while every other attribute is supplied. -/
def noModeSession : Session :=
  ⟨Except.ok none, Except.ok (some false),
   Except.ok (some ⟨some 47, some 8, some 120⟩),
   Except.ok (some 15), Except.ok (some 14), Except.ok (some 90),
   Except.ok (some ⟨some 12⟩), Except.ok ()⟩

/-- A healthy session whose close() raises. -/
def badCloseSession : Session :=
  ⟨Except.ok (some ⟨"GUIDED"⟩), Except.ok (some false),
   Except.ok (some ⟨some 47, some 8, some 120⟩),
   Except.ok (some 15), Except.ok (some 14), Except.ok (some 90),
   Except.ok (some ⟨some 12⟩), Except.error "close failed"⟩

/-- A session on a dropped link: reading airspeed raises. -/
def linkLostSession : Session :=
  ⟨Except.ok (some ⟨"GUIDED"⟩), Except.ok (some false),
   Except.ok (some ⟨some 47, some 8, some 120⟩),
   Except.error "link lost", Except.ok (some 14), Except.ok (some 90),
   Except.ok (some ⟨some 12⟩), Except.ok ()⟩

/- Theorems. -/

/-- C1 counterexample: with a session whose close() raises, Disconnect does
not end Disconnected and the failure is surfaced, not merely logged: the
exception escapes the handler and the global keeps the session. -/
theorem C1_close_failure_surfaces :
    disconnect_drone (some badCloseSession) =
      (DiscResp.raised "close failed", some badCloseSession) ∧
    (disconnect_drone (some badCloseSession)).2 ≠ none :=
  ⟨rfl, fun h => Option.noConfusion h⟩

/-- C1 (amended): Disconnect when no session is held is a no-op returning
the already-disconnected ack; when a session is held and its close
succeeds it ends Disconnected with the handle cleared; but when close
raises, the exception propagates to the caller and the handle is NOT
cleared (close is not best-effort in the code). -/
theorem C1_disconnect_behaviour (vehicle : Option Session) :
    (vehicle = none →
      disconnect_drone vehicle = (DiscResp.alreadyDisconnected, none)) ∧
    (∀ v, vehicle = some v → v.close_result = Except.ok () →
      disconnect_drone vehicle = (DiscResp.closed, none)) ∧
    (∀ v e, vehicle = some v → v.close_result = Except.error e →
      disconnect_drone vehicle = (DiscResp.raised e, some v)) := by
  refine ⟨fun h => by rw [h]; rfl, fun v hv hc => ?_, fun v e hv hc => ?_⟩ <;>
    rw [hv] <;> simp [disconnect_drone, hc]

/-- C1 witness: the amended theorem at the healthy session. -/
theorem C1_disconnect_behaviour_witness :
    disconnect_drone (some goodSession) = (DiscResp.closed, none) :=
  (C1_disconnect_behaviour (some goodSession)).2.1 goodSession rfl rfl

/-- C2: every failing connect attempt from the empty state returns the
structured 500 error matching its failure class (TimeoutError, DroneKit
APIException, other exception, or a None vehicle object / a raise while
logging the new vehicle, both reported as generic errors) and leaves the
global handle cleared; the code holds no intermediate connecting state, so
no branch returns with a partially established connection. -/
theorem C2_connect_failure_classified (driver : String → Nat → DriverResult) :
    (∀ m, driver connection_string 60 = DriverResult.timeoutExc m →
      connect_drone none driver = (ConnResp.timedOut, none)) ∧
    (∀ m, driver connection_string 60 = DriverResult.apiExc m →
      connect_drone none driver = (ConnResp.apiError m, none)) ∧
    (∀ m, driver connection_string 60 = DriverResult.otherExc m →
      connect_drone none driver = (ConnResp.unexpected m, none)) ∧
    (driver connection_string 60 = DriverResult.retNone →
      connect_drone none driver = (ConnResp.vehicleNone, none)) ∧
    (∀ s e, driver connection_string 60 = DriverResult.session s →
      log_connect_info s = Except.error e →
      connect_drone none driver = (ConnResp.unexpected e, none)) ∧
    (∀ r, connect_drone none driver = r → r.1.httpCode = 500 → r.2 = none) := by
  refine ⟨fun m h => ?_, fun m h => ?_, fun m h => ?_, fun h => ?_,
    fun s e h hl => ?_, fun r hr h500 => ?_⟩
  · simp [connect_drone, h]
  · simp [connect_drone, h]
  · simp [connect_drone, h]
  · simp [connect_drone, h]
  · simp [connect_drone, h, hl]
  · subst hr
    cases h : driver connection_string 60 with
    | session s =>
      cases hl : log_connect_info s with
      | ok u => simp [connect_drone, h, hl, ConnResp.httpCode] at h500
      | error e => simp [connect_drone, h, hl]
    | retNone => simp [connect_drone, h]
    | apiExc m => simp [connect_drone, h]
    | timeoutExc m => simp [connect_drone, h]
    | otherExc m => simp [connect_drone, h]

/-- C2 witness: a driver that times out yields the timeout error with the
handle cleared. -/
theorem C2_connect_failure_classified_witness :
    connect_drone none (fun _ _ => DriverResult.timeoutExc "timed out") =
      (ConnResp.timedOut, none) :=
  (C2_connect_failure_classified (fun _ _ => DriverResult.timeoutExc "timed out")).1
    "timed out" rfl

/-- C3 counterexample: a session in which only the mode attribute is
unavailable (every other field supplied) makes the whole Status call fail
with the 500 fetch error instead of returning a snapshot with mode absent:
the access vehicle.mode.name is not individually guarded. -/
theorem C3_absent_mode_fails_call :
    get_status (some noModeSession) =
      (StatusResp.fetchError "AttributeError: NoneType has no attribute name",
       some noModeSession) ∧
    (∀ d, (get_status (some noModeSession)).1 ≠ StatusResp.snapshot d) :=
  ⟨rfl, fun _ h => StatusResp.noConfusion h⟩

/-- C3 (amended): when every attribute read returns (none raises) and the
mode is present, Status yields a snapshot in which lat/lon/alt default to
absent when the location frame is absent, battery_voltage defaults to
absent when the battery is absent, and armed/airspeed/groundspeed/heading
are passed through (absent when the driver yields None), with the state
unchanged; but the mode is not individually guarded — an absent mode fails
the whole call (see the counterexample). -/
theorem C3_field_defaults (m : VehicleMode) (armed : Option Bool)
    (frame : Option Frame) (airspeed groundspeed heading : Option Val)
    (batt : Option Battery) (c : Except String Unit) :
    get_status (some ⟨Except.ok (some m), Except.ok armed, Except.ok frame,
        Except.ok airspeed, Except.ok groundspeed, Except.ok heading,
        Except.ok batt, c⟩) =
      (StatusResp.snapshot ⟨m.modeName, armed, frame.bind Frame.lat,
        frame.bind Frame.lon, frame.bind Frame.alt, airspeed, groundspeed,
        heading, batt.bind Battery.voltage⟩,
       some ⟨Except.ok (some m), Except.ok armed, Except.ok frame,
        Except.ok airspeed, Except.ok groundspeed, Except.ok heading,
        Except.ok batt, c⟩) := rfl

/-- C4: whenever building the status dict raises, Status returns the 500
fetch error and the global handle is untouched: the state stays Connected
with the same session until an explicit Disconnect. -/
theorem C4_status_error_preserves_state (v : Session) (e : String)
    (h : build_status v = Except.error e) :
    get_status (some v) = (StatusResp.fetchError e, some v) := by
  simp [get_status, h]

/-- C4 witness: the dropped-link session. -/
theorem C4_status_error_preserves_state_witness :
    get_status (some linkLostSession) =
      (StatusResp.fetchError "link lost", some linkLostSession) :=
  C4_status_error_preserves_state linkLostSession "link lost" rfl

/-- C5: Connect while a session is held short-circuits with the
already-connected ack, leaves the state and handle unchanged, and is
independent of the driver — no second session is opened. -/
theorem C5_connect_short_circuits (v : Session)
    (driver : String → Nat → DriverResult) :
    connect_drone (some v) driver = (ConnResp.alreadyConnected, some v) := rfl

/-- C6 counterexample: starting from a session whose close() raises, both
Disconnect calls raise and the state never reaches Disconnected — the
second call does not return the already-disconnected ack. -/
theorem C6_double_disconnect_can_raise :
    disconnect_drone (disconnect_drone (some badCloseSession)).2 =
      (DiscResp.raised "close failed", some badCloseSession) ∧
    (disconnect_drone (disconnect_drone (some badCloseSession)).2).1 ≠
      DiscResp.alreadyDisconnected :=
  ⟨rfl, fun h => DiscResp.noConfusion h⟩

/-- C6 (amended): whenever the first Disconnect actually clears the handle
(no close exception escaped), a second Disconnect returns the
already-disconnected ack with no error and the state stays Disconnected. -/
theorem C6_disconnect_idempotent (vehicle : Option Session)
    (h : (disconnect_drone vehicle).2 = none) :
    disconnect_drone (disconnect_drone vehicle).2 =
      (DiscResp.alreadyDisconnected, none) := by
  rw [h]; rfl

/-- C6 witness: double Disconnect from the healthy session. -/
theorem C6_disconnect_idempotent_witness :
    disconnect_drone (disconnect_drone (some goodSession)).2 =
      (DiscResp.alreadyDisconnected, none) :=
  C6_disconnect_idempotent (some goodSession) rfl

/-- C7 counterexample: a request carrying a malformed address is not
rejected: the body is ignored, a session-opening attempt is made at the
fixed connection string, and here it succeeds, changing the state to
connected — there is no InvalidAddress failure and no address validation. -/
theorem C7_malformed_address_still_connects :
    connect_endpoint "not-a-valid-address" none
        (fun _ _ => DriverResult.session goodSession) =
      (ConnResp.connected, some goodSession) ∧
    (connect_endpoint "not-a-valid-address" none
        (fun _ _ => DriverResult.session goodSession)).2 ≠ none :=
  ⟨rfl, fun h => Option.noConfusion h⟩

/-- C7 (amended): Connect performs no validation of the caller-supplied
address and never reads it at all: for every request body the endpoint
behaves exactly as connect_drone on the prior state and driver, every
attempt using only the fixed connection string. -/
theorem C7_address_ignored (req : String) (vehicle : Option Session)
    (driver : String → Nat → DriverResult) :
    connect_endpoint req vehicle driver = connect_drone vehicle driver := rfl

/-- C8 counterexample: the driver hands back a live session whose mode
attribute is unavailable; the baseline logging read of vehicle.mode.name
raises, the generic except branch discards the fresh session and returns a
500 — instead of storing the handle and treating the missing field as
absent. -/
theorem C8_absent_mode_discards_session :
    connect_drone none (fun _ _ => DriverResult.session noModeSession) =
      (ConnResp.unexpected "AttributeError: NoneType has no attribute name",
       none) ∧
    (connect_drone none (fun _ _ => DriverResult.session noModeSession)).1 ≠
      ConnResp.connected :=
  ⟨rfl, fun h => ConnResp.noConfusion h⟩

/-- C8 (amended): when the driver returns a session and the baseline
telemetry reads for the log (mode present, armed and location frame reads
not raising; an absent frame is logged as N/A) succeed, Connect stores the
handle and returns the plain success ack — the snapshot is logged, not
carried in the response. -/
theorem C8_connect_success_stores_handle (s : Session)
    (driver : String → Nat → DriverResult)
    (hd : driver connection_string 60 = DriverResult.session s)
    (hl : log_connect_info s = Except.ok ()) :
    connect_drone none driver = (ConnResp.connected, some s) := by
  simp [connect_drone, hd, hl]

/-- C8 witness: connecting with the healthy session. -/
theorem C8_connect_success_stores_handle_witness :
    connect_drone none (fun _ _ => DriverResult.session goodSession) =
      (ConnResp.connected, some goodSession) :=
  C8_connect_success_stores_handle goodSession
    (fun _ _ => DriverResult.session goodSession) rfl rfl

/-- C9: the connect endpoint is independent of the request content, and the
driver is consulted only at the fixed address udp:127.0.0.1:14550 with the
fixed 60-second timeout: two calls with any two request bodies, in the
same state, against drivers that agree at that one point, give identical
results. -/
theorem C9_request_content_irrelevant :
    connection_string = "udp:127.0.0.1:14550" ∧
    ∀ (req1 req2 : String) (vehicle : Option Session)
      (d1 d2 : String → Nat → DriverResult),
      d1 connection_string 60 = d2 connection_string 60 →
      connect_endpoint req1 vehicle d1 = connect_endpoint req2 vehicle d2 := by
  refine ⟨rfl, fun req1 req2 vehicle d1 d2 h => ?_⟩
  cases vehicle with
  | some v => rfl
  | none => simp [connect_endpoint, connect_drone, h]

/-- C9 witness: two different payloads against two drivers that differ away
from the fixed timeout yield the same response. -/
theorem C9_request_content_irrelevant_witness :
    connect_endpoint "payload-a" none (fun _ _ => DriverResult.retNone) =
      connect_endpoint "payload-b" none
        (fun _ t => if t = 60 then DriverResult.retNone
          else DriverResult.apiExc "boom") :=
  C9_request_content_irrelevant.2 "payload-a" "payload-b" none
    (fun _ _ => DriverResult.retNone)
    (fun _ t => if t = 60 then DriverResult.retNone
      else DriverResult.apiExc "boom") rfl

end WebGCS
